import Mathlib

/-!
Shallow embedding of `src/models/demo_test_vectors.h`, an auto-generated
data header holding five fixed-size test-input arrays of 32-bit floats.
The decimal float literals of the header are embedded as exact rationals
(each literal has at most 8 fractional digits, so it is an exact decimal).
-/

/-- `#define DEMO_N_TEST_VECTORS 5` (demo_test_vectors.h, line 6). -/
def DEMO_N_TEST_VECTORS : Int := 5

/-- `static const float demo_test_input_0[10]` (demo_test_vectors.h). -/
def demo_test_input_0 : List ℚ :=
  [-0.16711809, 0.14671369, 1.20650899, -0.81693566, 0.36867329,
   -0.39333880, 0.02874482, 1.27845192, 0.19109906, 0.04643655]

/-- `static const float demo_test_input_1[10]` (demo_test_vectors.h). -/
def demo_test_input_1 : List ℚ :=
  [-1.35985613, 0.74625355, 0.64548421, 2.16325474, -0.30777824,
   0.21915033, 0.24938369, 1.57745326, -0.09529553, 0.27902153]

/-- `static const float demo_test_input_2[10]` (demo_test_vectors.h). -/
def demo_test_input_2 : List ℚ :=
  [0.60789651, 0.18660912, -0.44643360, 0.19408999, 1.07363176,
   -1.02651525, 0.13296968, -0.70012081, 1.19504666, -1.52318692]

/-- `static const float demo_test_input_3[10]` (demo_test_vectors.h). -/
def demo_test_input_3 : List ℚ :=
  [-0.55892187, 0.37721187, 1.56552398, -0.06575026, -0.55519950,
   1.88115704, -1.44801390, -2.19880605, 0.44001445, -0.50205421]

/-- `static const float demo_test_input_4[10]` (demo_test_vectors.h). -/
def demo_test_input_4 : List ℚ :=
  [-1.02123284, 0.70835644, 0.24380071, -0.56407863, -1.28030443,
   0.87245733, 0.65020120, -0.09917586, 1.84663701, -1.07008481]

/-- The five declared arrays, in declaration order of the header. -/
def demo_test_vectors : List (List ℚ) :=
  [demo_test_input_0, demo_test_input_1, demo_test_input_2,
   demo_test_input_3, demo_test_input_4]

/-- All 50 element values of the table, in declaration order. -/
def demo_all_values : List ℚ :=
  demo_test_input_0 ++ demo_test_input_1 ++ demo_test_input_2 ++
  demo_test_input_3 ++ demo_test_input_4

/-- Modelled from the spec: the accessor
`get_test_vector(index) -> sequence of float, length = fixed per-set constant;
fails with OutOfRange when index is not in [0, N_VECTORS)` (spec §4).
The accessor itself is not under `src/`; only the constant data table is,
so the lookup is modelled from the spec's words over that table. Failure
(`OutOfRange`) is `none`; success returns the indexed declared array. -/
def get_test_vector (i : Int) : Option (List ℚ) :=
  if 0 ≤ i ∧ i < DEMO_N_TEST_VECTORS then
    some (demo_test_vectors.getD i.toNat [])
  else
    none

/-- C1: for every integer index `i`, `get_test_vector i` succeeds (returns
a vector) if and only if `0 ≤ i < 5`; outside `[0, 5)` it returns the
out-of-range failure `none`, never a silent default vector. -/
theorem get_test_vector_succeeds_iff (i : Int) :
    ((∃ v, get_test_vector i = some v) ↔ (0 ≤ i ∧ i < 5)) ∧
    (¬ (0 ≤ i ∧ i < 5) → get_test_vector i = none) := by
  unfold get_test_vector DEMO_N_TEST_VECTORS
  constructor
  · constructor
    · intro ⟨v, hv⟩
      by_contra h
      simp [h] at hv
    · intro h
      exact ⟨demo_test_vectors.getD i.toNat [], by simp [h]⟩
  · intro h
    simp [h]

/-- C2: for every valid index `i ∈ [0, 5)`, the vector returned by
`get_test_vector i` has exactly 10 elements. -/
theorem get_test_vector_length (i : Int) (h0 : 0 ≤ i) (h5 : i < 5)
    (v : List ℚ) (hv : get_test_vector i = some v) : v.length = 10 := by
  interval_cases i <;>
    simp [get_test_vector, DEMO_N_TEST_VECTORS, demo_test_vectors] at hv <;>
    subst hv <;> rfl

/-- Witness for C2 at the concrete index 0. -/
theorem get_test_vector_length_witness :
    (0:Int) ≤ 0 ∧ (0:Int) < 5 ∧ get_test_vector 0 = some demo_test_input_0 ∧
    demo_test_input_0.length = 10 :=
  ⟨by decide, by decide, by rfl,
   get_test_vector_length 0 (by decide) (by decide) demo_test_input_0 (by rfl)⟩

/-- C3: the declared count constant `DEMO_N_TEST_VECTORS` equals 5, and the
set of indices at which `get_test_vector` succeeds is exactly `Icc 0 4`,
whose cardinality equals the declared constant: no off-by-one. -/
theorem demo_count_matches :
    DEMO_N_TEST_VECTORS = 5 ∧
    (Finset.Icc (0:Int) (DEMO_N_TEST_VECTORS - 1)).card = DEMO_N_TEST_VECTORS ∧
    ∀ i : Int, (get_test_vector i).isSome ↔
      i ∈ Finset.Icc (0:Int) (DEMO_N_TEST_VECTORS - 1) := by
  refine ⟨rfl, ?_, ?_⟩
  · simp [DEMO_N_TEST_VECTORS, Int.card_Icc]
  · intro i
    unfold get_test_vector DEMO_N_TEST_VECTORS
    rw [Finset.mem_Icc]
    constructor
    · intro h
      by_contra hc
      have hc' : ¬ (0 ≤ i ∧ i < 5) := by omega
      simp [hc'] at h
    · intro h
      have h' : 0 ≤ i ∧ i < 5 := by omega
      simp [h']

/-- C4: `get_test_vector 0` yields a 10-element vector whose first element
is the literal `-0.16711809` and whose last element is `0.04643655`. -/
theorem get_test_vector_0_first_last :
    ∃ v, get_test_vector 0 = some v ∧ v.length = 10 ∧
      v.head? = some (-0.16711809 : ℚ) ∧ v.getLast? = some (0.04643655 : ℚ) := by
  exact ⟨demo_test_input_0, by rfl, by rfl, by rfl, by rfl⟩

/-- C5: `get_test_vector 4` yields a vector whose third element (zero-based
index 2) is the literal `0.24380071`. -/
theorem get_test_vector_4_third :
    ∃ v, get_test_vector 4 = some v ∧ v[2]? = some (0.24380071 : ℚ) := by
  exact ⟨demo_test_input_4, by rfl, by rfl⟩

/-- C6: every one of the 50 element values of the table lies in the closed
interval `[-2.5, 2.5]`. -/
theorem demo_values_in_range (x : ℚ) (hx : x ∈ demo_all_values) :
    -2.5 ≤ x ∧ x ≤ 2.5 := by
  have h : ∀ y ∈ demo_all_values, -2.5 ≤ y ∧ y ≤ 2.5 := by
    norm_num [demo_all_values, demo_test_input_0, demo_test_input_1,
      demo_test_input_2, demo_test_input_3, demo_test_input_4,
      List.forall_mem_cons, List.forall_mem_append]
  exact h x hx

/-- Witness for C6 at the concrete first element of the table. -/
theorem demo_values_in_range_witness :
    (-0.16711809 : ℚ) ∈ demo_all_values ∧
    (-2.5 ≤ (-0.16711809 : ℚ) ∧ (-0.16711809 : ℚ) ≤ 2.5) :=
  ⟨by simp [demo_all_values, demo_test_input_0],
   demo_values_in_range (-0.16711809 : ℚ) (by simp [demo_all_values, demo_test_input_0])⟩

/-- C7: the lookup is deterministic — two invocations of `get_test_vector`
at the same index return identical values; the underlying data is a pure
immutable constant, so no read can observe a changed value. -/
theorem get_test_vector_deterministic (i : Int) (v w : List ℚ)
    (hv : get_test_vector i = some v) (hw : get_test_vector i = some w) :
    v = w :=
  Option.some.inj (hv.symm.trans hw)

/-- Witness for C7 at the concrete index 0. -/
theorem get_test_vector_deterministic_witness :
    get_test_vector 0 = some demo_test_input_0 ∧
    demo_test_input_0 = demo_test_input_0 :=
  ⟨rfl, get_test_vector_deterministic 0 demo_test_input_0 demo_test_input_0 rfl rfl⟩

/-- C8: the indices are contiguous and zero-based — `get_test_vector i`
returns exactly the `i`-th named constant array in declaration order for
each `i` in `[0, 5)`, and fails just outside that range. -/
theorem get_test_vector_declaration_order :
    get_test_vector 0 = some demo_test_input_0 ∧
    get_test_vector 1 = some demo_test_input_1 ∧
    get_test_vector 2 = some demo_test_input_2 ∧
    get_test_vector 3 = some demo_test_input_3 ∧
    get_test_vector 4 = some demo_test_input_4 ∧
    get_test_vector (-1) = none ∧ get_test_vector 5 = none :=
  ⟨rfl, rfl, rfl, rfl, rfl, rfl, rfl⟩

/-- C9: every one of the 50 element values is nonzero (and, the elements
being exact decimal rationals in this embedding, finite and not NaN by
construction). -/
theorem demo_values_nonzero (x : ℚ) (hx : x ∈ demo_all_values) : x ≠ 0 := by
  have h : ∀ y ∈ demo_all_values, y ≠ 0 := by
    norm_num [demo_all_values, demo_test_input_0, demo_test_input_1,
      demo_test_input_2, demo_test_input_3, demo_test_input_4,
      List.forall_mem_cons, List.forall_mem_append]
  exact h x hx

/-- Witness for C9 at the concrete first element of the table. -/
theorem demo_values_nonzero_witness :
    (-0.16711809 : ℚ) ∈ demo_all_values ∧ (-0.16711809 : ℚ) ≠ 0 :=
  ⟨by simp [demo_all_values, demo_test_input_0],
   demo_values_nonzero (-0.16711809 : ℚ) (by simp [demo_all_values, demo_test_input_0])⟩

/-- C10: the five test vectors are pairwise distinct, and already their
first elements are pairwise distinct. -/
theorem demo_vectors_pairwise_distinct :
    demo_test_vectors.Pairwise (fun v w => v ≠ w) ∧
    (demo_test_vectors.map (fun v => v.head?)).Pairwise (fun a b => a ≠ b) := by
  constructor <;>
    norm_num [demo_test_vectors, demo_test_input_0, demo_test_input_1,
      demo_test_input_2, demo_test_input_3, demo_test_input_4,
      List.pairwise_cons, List.forall_mem_cons, List.cons.injEq]
